import Mathlib

/-!
Verification development for the blackbox exporter orchestration layer
(probe request handling, timeout negotiation, configuration reload and
IP whitelisting), shallowly embedded from the main package source.
Machine floating point timeouts are modelled as rationals; standard
library string parsers (strconv.ParseFloat, net.ParseIP, net.ParseCIDR)
and the yaml marshaller enter as oracle parameters, since they are not
part of this repository.
-/

namespace Blackbox

/-- Module as the orchestration layer sees it: a prober kind and the
timeout ceiling in seconds (module.Timeout.Seconds in the source);
protocol specific parameters are opaque to the core and omitted. -/
structure Module where
  prober : String
  timeout : Rat
  deriving DecidableEq

/-- Configuration root: the mapping from module name to Module
(config.Config.Modules in the source). -/
structure Config where
  modules : List (String × Module)
  deriving DecidableEq

/-- Map lookup on the Modules mapping. -/
def Config.find (c : Config) (name : String) : Option Module :=
  (c.modules.find? (fun p => p.1 == name)).map Prod.snd

/-- Probe request as the handler reads it: query parameters and the
scrape timeout header; the empty string encodes an absent parameter or
header, exactly as Go url.Values.Get and http.Header.Get return it. -/
structure Request where
  moduleParam : String
  target : String
  configData : String
  timeoutHeader : String
  deriving DecidableEq

/-- Request local metrics registry: the two core gauges plus whatever
collectors the invoked prober registered. -/
structure Registry where
  probeSuccess : Rat
  probeDuration : Rat
  extra : List (String × Rat)
  deriving DecidableEq

/-- All entries of a registry, core gauges first. -/
def Registry.entries (g : Registry) : List (String × Rat) :=
  ("probe_success", g.probeSuccess) :: ("probe_duration", g.probeDuration) :: g.extra

/-- Fresh registry as built at the start of every probe request:
probe_success and probe_duration gauges, both at their zero default,
and nothing else (lines creating the two gauges and the new registry). -/
def seedRegistry : Registry :=
  { probeSuccess := 0, probeDuration := 0, extra := [] }

/-- HTTP response as the handlers produce it. -/
inductive Response where
  | httpError (status : Nat) (body : String)
  | metricsPage (status : Nat) (registry : Registry)
  | content (status : Nat) (body : String)
  deriving DecidableEq

/-- Status code of a response. -/
def Response.status : Response → Nat
  | .httpError s _ => s
  | .metricsPage s _ => s
  | .content s _ => s

/-- Whether a response is a rendered metrics page. -/
def Response.isMetricsPage : Response → Bool
  | .metricsPage _ _ => true
  | _ => false

/-- Prober dispatch table keys, fixed at startup in the source. -/
def Probers : List String := ["http", "tcp", "icmp", "dns"]

/-- Default of the timeout-offset flag. -/
def defaultTimeoutOffset : Rat := 1 / 2

/-- Default of the web.ip-whitelist flag. -/
def defaultIpWhitelistString : String := "0.0.0.0/0,::/0"

/-- Error body for an unknown module (fmt.Sprintf with a quoted name). -/
def unknownModuleMsg (name : String) : String :=
  "Unknown module \"" ++ name ++ "\""

/-- Error body for an unparseable scrape timeout header. -/
def timeoutParseMsg (e : String) : String :=
  "Failed to parse timeout from Prometheus header: " ++ e

/-- Error body for an unknown prober kind (fmt.Sprintf with a quoted name). -/
def unknownProberMsg (p : String) : String :=
  "Unknown prober \"" ++ p ++ "\""

/-- Environment of external collaborators and oracle inputs of one
request: the float parser, config.RecoverConfig, the yaml marshaller,
the outcome of reading and parsing the configuration file at this
moment, the prober dispatch target (keyed by prober kind, given the
context deadline budget, the target and the effective module, returning
the success boolean and the protocol specific entries it registered),
the elapsed wall time observed for the probe, and the timeout-offset
flag value. -/
structure Env where
  parseFloat : String → Except String Rat
  recoverConfig : String → Module → Except String Module
  marshalConfig : Config → Except String String
  reloadAttempt : Except String Config
  prob : String → Rat → String → Module → Bool × List (String × Rat)
  elapsed : Rat
  timeoutOffset : Rat

/-- Shallow embedding of probeHandler: module resolution with the
http_2xx default, scrape timeout header parsing (500 on parse failure),
the 10 second fallback when the parsed value or absent header leaves
zero, clamping to a positive module ceiling smaller than the candidate,
subtraction of the timeout offset, the missing-target 400, the inline
config override through config.RecoverConfig (400 on failure), prober
dispatch (400 on unknown kind), and finalization of the fresh registry:
duration set to elapsed wall time, success set to 1 only on success,
rendered with status 200. -/
def probeHandler (env : Env) (c : Config) (r : Request) : Response :=
  let moduleName := if r.moduleParam = "" then "http_2xx" else r.moduleParam
  match c.find moduleName with
  | none => .httpError 400 (unknownModuleMsg moduleName)
  | some m0 =>
    match (if r.timeoutHeader = "" then Except.ok 0 else env.parseFloat r.timeoutHeader) with
    | .error e => .httpError 500 (timeoutParseMsg e)
    | .ok t0 =>
      let t1 : Rat := if t0 = 0 then 10 else t0
      let t2 : Rat := if m0.timeout < t1 ∧ 0 < m0.timeout then m0.timeout else t1
      let budget : Rat := t2 - env.timeoutOffset
      if r.target = "" then .httpError 400 "Target parameter is missing"
      else
        match (if r.configData = "" then Except.ok m0 else env.recoverConfig r.configData m0) with
        | .error e => .httpError 400 e
        | .ok m =>
          if m.prober ∈ Probers then
            let res := env.prob m.prober budget r.target m
            let afterProbe : Registry := { seedRegistry with extra := seedRegistry.extra ++ res.2 }
            let afterDuration : Registry := { afterProbe with probeDuration := env.elapsed }
            let final : Registry :=
              if res.1 then { afterDuration with probeSuccess := 1 } else afterDuration
            .metricsPage 200 final
          else .httpError 400 (unknownProberMsg m.prober)

/-- Client address, carrying its family; the value is the numeric form
of the 4 or 16 byte representation. -/
inductive IP where
  | v4 (a : Nat)
  | v6 (a : Nat)
  deriving DecidableEq

/-- Family test matching the To4 check of the source. -/
def IP.isV4 : IP → Bool
  | .v4 _ => true
  | .v6 _ => false

/-- Parsed CIDR block: family, base address and mask length. -/
structure IPNet where
  isV4 : Bool
  base : Nat
  maskLen : Nat
  deriving DecidableEq

/-- Modelled from the spec: range membership of the net library (not
part of this repository) — an address falls inside a block when the
families agree and the address bits above the mask length equal those
of the base; a family mismatch never matches. -/
def ipInNet (ip : IP) (n : IPNet) : Bool :=
  match ip with
  | .v4 a => n.isV4 && ((a % 2 ^ 32) >>> (32 - n.maskLen) == (n.base % 2 ^ 32) >>> (32 - n.maskLen))
  | .v6 a => !n.isV4 && ((a % 2 ^ 128) >>> (128 - n.maskLen) == (n.base % 2 ^ 128) >>> (128 - n.maskLen))

/-- Modelled from the spec: promhttp.CheckInIpWhitelist (not in the
sources given) — the gate admits a client address exactly when it falls
inside at least one whitelist range. -/
def checkInIpWhitelist (wl : List IPNet) (ip : IP) : Bool :=
  wl.any (fun n => ipInNet ip n)

/-- Normalization step of the whitelist loop in main: an entry that
parses as a bare address gets an exact-match suffix appended — /32 when
its To4 form exists, /128 otherwise — before CIDR parsing; any other
entry is passed to the CIDR parser unchanged. -/
def normalizeEntry (parIP : String → Option IP) (s : String) : String :=
  match parIP s with
  | some ip => if ip.isV4 then s ++ "/32" else s ++ "/128"
  | none => s

/-- Helper of splitComma: walks the characters, cutting at commas. -/
def splitCommaChars : List Char → List Char → List String
  | [], acc => [String.mk acc.reverse]
  | c :: cs, acc =>
    if c = ',' then String.mk acc.reverse :: splitCommaChars cs []
    else splitCommaChars cs (c :: acc)

/-- Comma split of the flag value (strings.Split with a one character
separator). -/
def splitComma (s : String) : List String :=
  splitCommaChars s.toList []

/-- Whitelist construction loop of main over the comma-split flag
value: each entry is normalized then CIDR-parsed; a parse failure is
fatal (log.Fatalf), so construction aborts with the error and the
process never serves. -/
def buildWhitelist (parIP : String → Option IP) (parCIDR : String → Option IPNet) :
    List String → Except String (List IPNet)
  | [] => .ok []
  | e :: rest =>
    match parCIDR (normalizeEntry parIP e) with
    | none => .error ("Add netip error: " ++ normalizeEntry parIP e)
    | some n =>
      match buildWhitelist parIP parCIDR rest with
      | .error msg => .error msg
      | .ok ns => .ok (n :: ns)

/-- Server state: the configuration held by the SafeConfig store. -/
structure ServerState where
  store : Config
  deriving DecidableEq

/-- Origin of a reload trigger: an operator SIGHUP or the
administrative endpoint (which waits on a reply channel). -/
inductive ReloadTrigger where
  | signal
  | admin
  deriving DecidableEq

/-- Modelled from the spec: config.SafeConfig.ReloadConfig (in the
config package, not among the sources given) — given the outcome of
reading, parsing and validating the configuration file, on success the
store reference is atomically replaced by the new Configuration, on
failure the current Configuration is left untouched and the error is
returned. -/
def safeReloadConfig (attempt : Except String Config) (s : ServerState) :
    ServerState × Option String :=
  match attempt with
  | .error e => (s, some e)
  | .ok c => ({ store := c }, none)

/-- Result of one reload attempt of the mediator goroutine: the store
state afterwards, the value sent on the reply channel (none for a
signal trigger, which has no channel), and whether an error was
logged. -/
structure ReloadOutput where
  state : ServerState
  reply : Option (Option String)
  loggedError : Bool
  deriving DecidableEq

/-- Mediator goroutine of main, one iteration: a SIGHUP trigger runs a
reload attempt and logs on failure; an administrative trigger runs a
reload attempt and sends the error (or nil) on the reply channel,
logging the error as well on failure. -/
def reloadMediator (attempt : Except String Config) (t : ReloadTrigger) (s : ServerState) :
    ReloadOutput :=
  match t with
  | .signal =>
    match safeReloadConfig attempt s with
    | (s1, some _) => { state := s1, reply := none, loggedError := true }
    | (s1, none) => { state := s1, reply := none, loggedError := false }
  | .admin =>
    match safeReloadConfig attempt s with
    | (s1, some e) => { state := s1, reply := some (some e), loggedError := true }
    | (s1, none) => { state := s1, reply := some none, loggedError := false }

/-- Inbound request to one of the five registered endpoints, with the
originating client address. -/
inductive ServerRequest where
  | probe (client : IP) (r : Request)
  | reload (client : IP) (isPost : Bool)
  | metricsSelf (client : IP)
  | landing (client : IP)
  | configInspect (client : IP)
  deriving DecidableEq

/-- Originating client address of a request. -/
def ServerRequest.client : ServerRequest → IP
  | .probe ip _ => ip
  | .reload ip _ => ip
  | .metricsSelf ip => ip
  | .landing ip => ip
  | .configInspect ip => ip

/-- Whether a request goes to the scrape endpoint. -/
def ServerRequest.isProbe : ServerRequest → Bool
  | .probe _ _ => true
  | _ => false

/-- Side effects observable while handling one request: whether the
shared configuration store was read, whether a reload trigger was
submitted, and whether a request scoped metric registry was registered
and rendered. -/
structure Effects where
  configRead : Bool
  reloadTriggered : Bool
  metricRegistered : Bool
  deriving DecidableEq

/-- No side effects. -/
def noEffects : Effects :=
  { configRead := false, reloadTriggered := false, metricRegistered := false }

/-- Modelled from the spec: the denial written by the access gate on a
client outside every whitelist range — a client-error status and no
further processing. -/
def denialResponse : Response := .httpError 403 "IP not in whitelist"

/-- Landing page body served at the root path. -/
def landingPage : String :=
  "<html><head><title>Blackbox Exporter</title></head><body><h1>Blackbox Exporter</h1></body></html>"

/-- Shallow embedding of the five endpoint handlers registered in main.
Every handler first consults the access gate and stops with the denial
on failure. The scrape endpoint then snapshots the store and runs
probeHandler; the administrative reload endpoint rejects non-POST with
405, otherwise submits an acknowledged trigger to the mediator and
surfaces its outcome (500 with the error text on failure, 200
otherwise); the self metrics and landing endpoints serve static
content; the inspection endpoint marshals the store snapshot (500 on
marshal failure). -/
def handleRequest (env : Env) (wl : List IPNet) (s : ServerState) :
    ServerRequest → ServerState × Response × Effects
  | .probe ip r =>
    if checkInIpWhitelist wl ip then
      let resp := probeHandler env s.store r
      (s, resp, { configRead := true, reloadTriggered := false,
                  metricRegistered := resp.isMetricsPage })
    else (s, denialResponse, noEffects)
  | .reload ip isPost =>
    if checkInIpWhitelist wl ip then
      if isPost then
        let out := reloadMediator env.reloadAttempt .admin s
        match out.reply with
        | some (some e) =>
          (out.state, .httpError 500 ("failed to reload config: " ++ e),
           { configRead := false, reloadTriggered := true, metricRegistered := false })
        | _ =>
          (out.state, .content 200 "",
           { configRead := false, reloadTriggered := true, metricRegistered := false })
      else (s, .content 405 "This endpoint requires a POST request.\n", noEffects)
    else (s, denialResponse, noEffects)
  | .metricsSelf ip =>
    if checkInIpWhitelist wl ip then (s, .content 200 "process metrics", noEffects)
    else (s, denialResponse, noEffects)
  | .landing ip =>
    if checkInIpWhitelist wl ip then (s, .content 200 landingPage, noEffects)
    else (s, denialResponse, noEffects)
  | .configInspect ip =>
    if checkInIpWhitelist wl ip then
      match env.marshalConfig s.store with
      | .ok body =>
        (s, .content 200 body,
         { configRead := true, reloadTriggered := false, metricRegistered := false })
      | .error e =>
        (s, .httpError 500 e,
         { configRead := true, reloadTriggered := false, metricRegistered := false })
    else (s, denialResponse, noEffects)

/-- Sequential service of a list of requests, threading the store
state. -/
def serve (env : Env) (wl : List IPNet) (s : ServerState) :
    List ServerRequest → ServerState × List (Response × Effects)
  | [] => (s, [])
  | q :: qs =>
    let step := handleRequest env wl s q
    let rest := serve env wl step.1 qs
    (rest.1, step.2 :: rest.2)

/-- Deadline budget as the specification describes timeout
negotiation (with the zero hint falling back to the baseline): the
candidate is the parsed hint when nonzero and 10 otherwise, clamped to
the module ceiling when that ceiling is positive and strictly smaller,
minus the safety offset. -/
def specBudget (env : Env) (m0 : Module) (t0 : Rat) : Rat :=
  (if m0.timeout < (if t0 = 0 then 10 else t0) ∧ 0 < m0.timeout then m0.timeout
   else (if t0 = 0 then 10 else t0)) - env.timeoutOffset

/-- Example module without a ceiling timeout. -/
def mEx : Module := { prober := "http", timeout := 0 }

/-- Example module with a 5 second ceiling. -/
def mEx5 : Module := { prober := "http", timeout := 5 }

/-- Example configuration holding only the default module name. -/
def cEx : Config := { modules := [("http_2xx", mEx)] }

/-- Example configuration whose default module has a 5 second ceiling. -/
def cEx5 : Config := { modules := [("http_2xx", mEx5)] }

/-- Example float parser oracle accepting a few numerals and failing on
anything else with the strconv style message. -/
def pfEx : String → Except String Rat := fun s =>
  if s = "20" then .ok 20
  else if s = "3" then .ok 3
  else if s = "0" then .ok 0
  else .error ("parsing \"" ++ s ++ "\": invalid syntax")

/-- Example override merger oracle that always fails. -/
def rcEx : String → Module → Except String Module :=
  fun _ _ => .error "yaml: unmarshal error"

/-- Observing prober oracle: succeeds and registers the context budget
it received as its only extra entry. -/
def obsProb : String → Rat → String → Module → Bool × List (String × Rat) :=
  fun _ budget _ _ => (true, [("observed_budget", budget)])

/-- Prober oracle that always fails and registers nothing. -/
def failProb : String → Rat → String → Module → Bool × List (String × Rat) :=
  fun _ _ _ _ => (false, [])

/-- Example environment with the observing prober and the default
timeout offset. -/
def envEx : Env :=
  { parseFloat := pfEx, recoverConfig := rcEx,
    marshalConfig := fun _ => .ok "modules:",
    reloadAttempt := .error "open blackbox.yml: no such file",
    prob := obsProb, elapsed := 2, timeoutOffset := 1 / 2 }

/-- Example environment whose prober fails. -/
def envFail : Env := { envEx with prob := failProb }

/-- Plain request: default module, a target, no override, no hint. -/
def reqPlain : Request :=
  { moduleParam := "", target := "example.com", configData := "", timeoutHeader := "" }

/-- Request with a hint header that parses to zero. -/
def reqHint0 : Request := { reqPlain with timeoutHeader := "0" }

/-- Request with a hint header of 20 seconds. -/
def reqHint20 : Request := { reqPlain with timeoutHeader := "20" }

/-- Request with no target and an unparseable hint header. -/
def reqNoTargetBadHint : Request :=
  { moduleParam := "", target := "", configData := "", timeoutHeader := "abc" }

/-- Request naming an unknown module, with an unparseable hint header. -/
def reqBadModBadHint : Request :=
  { moduleParam := "nope", target := "example.com", configData := "", timeoutHeader := "abc" }

/-- Request with an unparseable hint header and a valid target. -/
def reqBadHint : Request := { reqPlain with timeoutHeader := "abc" }

/-- Request without a target but with an inline override and a hint. -/
def reqNoTarget : Request :=
  { moduleParam := "", target := "", configData := "bad-override", timeoutHeader := "20" }

/-- Example bare address parser oracle. -/
def pIPex : String → Option IP := fun s =>
  if s = "127.0.0.1" then some (.v4 2130706433)
  else if s = "::1" then some (.v6 1)
  else none

/-- Example CIDR parser oracle. -/
def pCIDRex : String → Option IPNet := fun s =>
  if s = "127.0.0.1/32" then some { isV4 := true, base := 2130706433, maskLen := 32 }
  else if s = "::1/128" then some { isV4 := false, base := 1, maskLen := 128 }
  else if s = "0.0.0.0/0" then some { isV4 := true, base := 0, maskLen := 0 }
  else if s = "::/0" then some { isV4 := false, base := 0, maskLen := 0 }
  else none

/-- Range admitting every IPv4 address, the parse of 0.0.0.0/0. -/
def allV4 : IPNet := { isV4 := true, base := 0, maskLen := 0 }

/-- Range admitting every IPv6 address, the parse of ::/0. -/
def allV6 : IPNet := { isV4 := false, base := 0, maskLen := 0 }

/-- Example server state holding the example configuration. -/
def sEx : ServerState := { store := cEx }

/-- Request carrying an inline config override string. -/
def reqOverride : Request :=
  { moduleParam := "", target := "example.com", configData := "prober: tcp", timeoutHeader := "" }

theorem mod_two_pow_shiftRight (a k : Nat) : (a % 2 ^ k) >>> k = 0 := by
  rw [Nat.shiftRight_eq_div_pow]
  exact Nat.div_eq_of_lt (Nat.mod_lt _ (pow_pos (by norm_num) k))

theorem checkInIpWhitelist_default (ip : IP) : checkInIpWhitelist [allV4, allV6] ip = true := by
  cases ip with
  | v4 a =>
    have hz := mod_two_pow_shiftRight a 32
    simp only [checkInIpWhitelist, List.any_cons, List.any_nil, ipInNet, allV4, allV6,
      Nat.sub_zero, Nat.zero_mod, Nat.zero_shiftRight, hz, beq_self_eq_true,
      Bool.true_and, Bool.and_true, Bool.false_and, Bool.not_true, Bool.not_false,
      Bool.or_false, Bool.false_or, Bool.true_or, Bool.or_true]
  | v6 a =>
    have hz := mod_two_pow_shiftRight a 128
    simp only [checkInIpWhitelist, List.any_cons, List.any_nil, ipInNet, allV4, allV6,
      Nat.sub_zero, Nat.zero_mod, Nat.zero_shiftRight, hz, beq_self_eq_true,
      Bool.true_and, Bool.and_true, Bool.false_and, Bool.not_true, Bool.not_false,
      Bool.or_false, Bool.false_or, Bool.true_or, Bool.or_true]

theorem probe_state_frame (env : Env) (wl : List IPNet) (s : ServerState) (ip : IP) (r : Request) :
    (handleRequest env wl s (.probe ip r)).1 = s := by
  by_cases h : checkInIpWhitelist wl ip <;> simp [handleRequest, h]

theorem serve_state_frame_of_probes (env : Env) (wl : List IPNet) :
    ∀ (qs : List ServerRequest) (s : ServerState),
      (∀ q ∈ qs, q.isProbe = true) → (serve env wl s qs).1 = s := by
  intro qs
  induction qs with
  | nil => intro s _; rfl
  | cons q qs ih =>
    intro s hall
    have hq : q.isProbe = true := hall q (List.mem_cons_self q qs)
    cases q with
    | probe ip r =>
      show (serve env wl (handleRequest env wl s (.probe ip r)).1 qs).1 = s
      rw [probe_state_frame]
      exact ih s (fun p hp => hall p (List.mem_cons_of_mem _ hp))
    | reload ip b => simp [ServerRequest.isProbe] at hq
    | metricsSelf ip => simp [ServerRequest.isProbe] at hq
    | landing ip => simp [ServerRequest.isProbe] at hq
    | configInspect ip => simp [ServerRequest.isProbe] at hq

theorem serve_get_after_probes (env : Env) (wl : List IPNet) :
    ∀ (rs1 : List ServerRequest) (s : ServerState) (q : ServerRequest) (rs2 : List ServerRequest),
      (∀ p ∈ rs1, p.isProbe = true) →
      (serve env wl s (rs1 ++ q :: rs2)).2.get? rs1.length
        = some (handleRequest env wl s q).2 := by
  intro rs1
  induction rs1 with
  | nil => intro s q rs2 _; rfl
  | cons p rs1 ih =>
    intro s q rs2 hall
    have hp : p.isProbe = true := hall p (List.mem_cons_self p rs1)
    cases p with
    | probe ip r =>
      show ((handleRequest env wl s (.probe ip r)).2 ::
              (serve env wl (handleRequest env wl s (.probe ip r)).1 (rs1 ++ q :: rs2)).2).get?
            (rs1.length + 1) = _
      rw [List.get?_cons_succ, probe_state_frame]
      exact ih s q rs2 (fun x hx => hall x (List.mem_cons_of_mem _ hx))
    | reload ip b => simp [ServerRequest.isProbe] at hp
    | metricsSelf ip => simp [ServerRequest.isProbe] at hp
    | landing ip => simp [ServerRequest.isProbe] at hp
    | configInspect ip => simp [ServerRequest.isProbe] at hp

theorem probeHandler_reaches_prober (env : Env) (c : Config) (r : Request)
    (m0 m : Module) (t0 : Rat)
    (hm : c.find (if r.moduleParam = "" then "http_2xx" else r.moduleParam) = some m0)
    (ht : (if r.timeoutHeader = "" then Except.ok 0 else env.parseFloat r.timeoutHeader)
            = Except.ok t0)
    (htg : r.target ≠ "")
    (hrec : (if r.configData = "" then Except.ok m0 else env.recoverConfig r.configData m0)
              = Except.ok m)
    (hp : m.prober ∈ Probers) :
    probeHandler env c r = .metricsPage 200
      { probeSuccess := if (env.prob m.prober (specBudget env m0 t0) r.target m).1 then 1 else 0,
        probeDuration := env.elapsed,
        extra := (env.prob m.prober (specBudget env m0 t0) r.target m).2 } := by
  have hfold : (if m0.timeout < (if t0 = 0 then 10 else t0) ∧ 0 < m0.timeout then m0.timeout
      else (if t0 = 0 then 10 else t0)) - env.timeoutOffset = specBudget env m0 t0 := rfl
  simp only [probeHandler, hm, ht, hrec, htg, hp, seedRegistry, ite_true, ite_false,
    if_neg, if_pos, List.nil_append]
  rw [hfold]
  split <;> simp_all

/-- C1 counterexample: a hint header that is present and parses to 0
refutes the claim that the candidate always starts at the parseable
hint — the code falls back to the baseline 10, so the prober observes a
budget of 10 − 1/2 = 19/2, while the claim predicts 0 − 1/2. -/
theorem C1_counterexample :
    probeHandler envEx cEx reqHint0 = .metricsPage 200
      { probeSuccess := 1, probeDuration := 2, extra := [("observed_budget", 19 / 2)] }
    ∧ ((19 : Rat) / 2 ≠ 0 - 1 / 2) := by
  constructor
  · have h := probeHandler_reaches_prober envEx cEx reqHint0 mEx mEx 0 rfl rfl
      (by decide) rfl (by decide)
    have hpr : envEx.prob = obsProb := rfl
    have hb : specBudget envEx mEx 0 = 19 / 2 := by
      norm_num [specBudget, mEx, envEx]
    rw [hpr] at h
    simp only [obsProb, hb] at h
    exact h
  · norm_num

/-- C1 (amended): for every probe request whose module resolves and
whose hint header is absent or parses, the effective deadline budget
passed to the prober equals (candidate − offset), where the candidate
is the parsed hint when it is nonzero and the baseline 10 when the
header is absent or its value parses to 0; a positive module ceiling
strictly smaller than the candidate clamps it down (specBudget). -/
theorem C1_amended_budget (env : Env) (c : Config) (r : Request) (m0 : Module) (t0 : Rat)
    (hprob : env.prob = obsProb)
    (hm : c.find (if r.moduleParam = "" then "http_2xx" else r.moduleParam) = some m0)
    (ht : (if r.timeoutHeader = "" then Except.ok 0 else env.parseFloat r.timeoutHeader)
            = Except.ok t0)
    (htg : r.target ≠ "")
    (hcd : r.configData = "")
    (hp : m0.prober ∈ Probers) :
    probeHandler env c r = .metricsPage 200
      { probeSuccess := 1, probeDuration := env.elapsed,
        extra := [("observed_budget", specBudget env m0 t0)] } := by
  have h := probeHandler_reaches_prober env c r m0 m0 t0 hm ht htg (by simp [hcd]) hp
  rw [hprob] at h
  simpa [obsProb] using h

/-- C1 witness: ceiling 5 with hint 20 gives an observed budget of
5 − 1/2, through the amended theorem at concrete inputs. -/
theorem C1_amended_budget_witness :
    probeHandler envEx cEx5 reqHint20 = .metricsPage 200
      { probeSuccess := 1, probeDuration := 2,
        extra := [("observed_budget", specBudget envEx mEx5 20)] } :=
  C1_amended_budget envEx cEx5 reqHint20 mEx5 20 rfl rfl rfl (by decide) rfl (by decide)

/-- C2 counterexample: a request with an absent target is not rejected
with a 400 naming the target when the hint header is unparseable — the
hint is examined before the target, so the response is the 500 parse
error, refuting the claimed step ordering and the claimed
indifference to the hint header. -/
theorem C2_counterexample :
    probeHandler envEx cEx reqNoTargetBadHint
      = .httpError 500 (timeoutParseMsg "parsing \"abc\": invalid syntax")
    ∧ (probeHandler envEx cEx reqNoTargetBadHint).status ≠ 400 := by
  constructor
  · decide
  · decide

/-- C2 (amended): for every probe request whose module resolves and
whose hint header is absent or parses, an absent target is rejected
with 400 and a body naming the missing parameter, regardless of the
config parameter; the rejection follows module resolution and hint
parsing rather than preceding them. -/
theorem C2_amended_missing_target (env : Env) (c : Config) (r : Request) (m0 : Module) (t0 : Rat)
    (hm : c.find (if r.moduleParam = "" then "http_2xx" else r.moduleParam) = some m0)
    (ht : (if r.timeoutHeader = "" then Except.ok 0 else env.parseFloat r.timeoutHeader)
            = Except.ok t0)
    (htg : r.target = "") :
    probeHandler env c r = .httpError 400 "Target parameter is missing" := by
  simp [probeHandler, hm, ht, htg]

/-- C2 witness: a request with no target, an inline override string and
a parseable hint receives the missing-target 400, through the amended
theorem at concrete inputs. -/
theorem C2_amended_missing_target_witness :
    probeHandler envEx cEx reqNoTarget = .httpError 400 "Target parameter is missing" :=
  C2_amended_missing_target envEx cEx reqNoTarget mEx 20 rfl rfl rfl

/-- C8 counterexample: a request whose hint header is unparseable but
whose module name is unknown is answered 400 (unknown module), not 500
— module resolution precedes hint parsing, refuting the claim for such
requests. -/
theorem C8_counterexample :
    probeHandler envEx cEx reqBadModBadHint = .httpError 400 (unknownModuleMsg "nope")
    ∧ (probeHandler envEx cEx reqBadModBadHint).status ≠ 500 := by
  constructor
  · decide
  · decide

/-- C8 (amended): for every probe request whose module resolves and
whose hint header is present but unparseable, the response is a server
error 500 whose body surfaces the parse error, not a client error. -/
theorem C8_amended_unparseable_hint (env : Env) (c : Config) (r : Request) (m0 : Module)
    (e : String)
    (hm : c.find (if r.moduleParam = "" then "http_2xx" else r.moduleParam) = some m0)
    (hpresent : r.timeoutHeader ≠ "")
    (hbad : env.parseFloat r.timeoutHeader = .error e) :
    probeHandler env c r = .httpError 500 (timeoutParseMsg e) := by
  simp [probeHandler, hm, hpresent, hbad]

/-- C8 witness: an unparseable hint on a resolvable module yields the
500 with the parser message, through the amended theorem at concrete
inputs. -/
theorem C8_amended_unparseable_hint_witness :
    probeHandler envEx cEx reqBadHint
      = .httpError 500 (timeoutParseMsg "parsing \"abc\": invalid syntax") :=
  C8_amended_unparseable_hint envEx cEx reqBadHint mEx "parsing \"abc\": invalid syntax"
    rfl (by decide) rfl

/-- C10: a hint header that is present and parses to exactly 0 is
treated as an absent header — the baseline candidate 10 is used, so the
observed deadline budget is (min 10 ceiling when the ceiling is
positive, else 10) minus the offset, and the hint value 0 is never the
candidate. -/
theorem C10_zero_hint_baseline (env : Env) (c : Config) (r : Request) (m0 : Module)
    (hprob : env.prob = obsProb)
    (hm : c.find (if r.moduleParam = "" then "http_2xx" else r.moduleParam) = some m0)
    (hpresent : r.timeoutHeader ≠ "")
    (hzero : env.parseFloat r.timeoutHeader = Except.ok 0)
    (htg : r.target ≠ "")
    (hcd : r.configData = "")
    (hp : m0.prober ∈ Probers) :
    probeHandler env c r = .metricsPage 200
      { probeSuccess := 1, probeDuration := env.elapsed,
        extra := [("observed_budget",
          (if 0 < m0.timeout then min 10 m0.timeout else 10) - env.timeoutOffset)] } := by
  have ht : (if r.timeoutHeader = "" then Except.ok 0 else env.parseFloat r.timeoutHeader)
      = Except.ok (0 : Rat) := by simp [hpresent, hzero]
  have h := probeHandler_reaches_prober env c r m0 m0 0 hm ht htg (by simp [hcd]) hp
  rw [hprob] at h
  have hbud : specBudget env m0 0
      = (if 0 < m0.timeout then min 10 m0.timeout else 10) - env.timeoutOffset := by
    unfold specBudget
    by_cases h1 : 0 < m0.timeout
    · by_cases h2 : m0.timeout < 10
      · simp [h1, h2, min_eq_right h2.le]
      · simp [h1, h2, min_eq_left (not_lt.mp h2)]
    · simp [h1]
  rw [hbud] at h
  simpa [obsProb] using h

/-- C10 witness: module ceiling 5 with a hint parsing to 0 gives an
observed budget of 5 − 1/2, through the theorem at concrete inputs. -/
theorem C10_zero_hint_baseline_witness :
    probeHandler envEx cEx5 reqHint0 = .metricsPage 200
      { probeSuccess := 1, probeDuration := 2,
        extra := [("observed_budget",
          (if 0 < mEx5.timeout then min 10 mEx5.timeout else 10) - envEx.timeoutOffset)] } :=
  C10_zero_hint_baseline envEx cEx5 reqHint0 mEx5 rfl rfl (by decide) rfl (by decide) rfl
    (by decide)

/-- C3: on every failed reload attempt the store is left untouched; the
error is acknowledged on the reply channel for an administrative
trigger and logged for a signal trigger; and the administrative
endpoint surfaces the failure as a 500 while the state is unchanged. -/
theorem C3_reload_failure_atomic (attempt : Except String Config) (e : String)
    (t : ReloadTrigger) (s : ServerState) (env : Env) (wl : List IPNet) (ip : IP)
    (ha : attempt = .error e) (henv : env.reloadAttempt = .error e)
    (hip : checkInIpWhitelist wl ip = true) :
    (reloadMediator attempt t s).state = s
    ∧ (reloadMediator attempt t s).reply
        = (match t with
           | ReloadTrigger.signal => none
           | ReloadTrigger.admin => some (some e))
    ∧ (reloadMediator attempt t s).loggedError = true
    ∧ handleRequest env wl s (.reload ip true)
        = (s, .httpError 500 ("failed to reload config: " ++ e),
           { configRead := false, reloadTriggered := true, metricRegistered := false }) := by
  subst ha
  cases t <;> simp [reloadMediator, safeReloadConfig, handleRequest, hip, henv]

/-- C3 witness: a concrete failed administrative reload leaves the
example state in place, acknowledges the error, and the endpoint
answers 500 with the error text. -/
theorem C3_reload_failure_atomic_witness :
    (reloadMediator (Except.error "open blackbox.yml: no such file") .admin sEx).state = sEx
    ∧ (reloadMediator (Except.error "open blackbox.yml: no such file") .admin sEx).reply
        = some (some "open blackbox.yml: no such file")
    ∧ (reloadMediator (Except.error "open blackbox.yml: no such file") .admin sEx).loggedError
        = true
    ∧ handleRequest envEx [allV4] sEx (.reload (.v4 7) true)
        = (sEx, .httpError 500 ("failed to reload config: " ++ "open blackbox.yml: no such file"),
           { configRead := false, reloadTriggered := true, metricRegistered := false }) :=
  C3_reload_failure_atomic (Except.error "open blackbox.yml: no such file")
    "open blackbox.yml: no such file" .admin sEx envEx [allV4] (.v4 7) rfl rfl (by decide)

/-- C4: every endpoint consults the access gate first; a denied client
receives the denial response and causes no state change, no
configuration read, no metric registration and no reload trigger. -/
theorem C4_deny_no_side_effects (env : Env) (wl : List IPNet) (s : ServerState)
    (q : ServerRequest) (h : checkInIpWhitelist wl q.client = false) :
    handleRequest env wl s q = (s, denialResponse, noEffects) := by
  cases q <;> simp_all [handleRequest, ServerRequest.client]

/-- C4 witness: an IPv6 client against an IPv4-only whitelist is denied
on the scrape endpoint with no side effects. -/
theorem C4_deny_no_side_effects_witness :
    handleRequest envEx [allV4] sEx (.probe (.v6 1) reqPlain) = (sEx, denialResponse, noEffects) :=
  C4_deny_no_side_effects envEx [allV4] sEx (.probe (.v6 1) reqPlain) (by decide)

/-- C5: for every probe request that reaches the prober call, the
rendered registry carries the elapsed wall time as duration regardless
of outcome, the success entry is 1 exactly when the prober returned
true and stays at its default 0 otherwise (always 0 or 1, never
negative, never omitted), and the response status is 200 whether the
probe succeeded or failed. -/
theorem C5_probe_finalization (env : Env) (c : Config) (r : Request) (m0 m : Module) (t0 : Rat)
    (hm : c.find (if r.moduleParam = "" then "http_2xx" else r.moduleParam) = some m0)
    (ht : (if r.timeoutHeader = "" then Except.ok 0 else env.parseFloat r.timeoutHeader)
            = Except.ok t0)
    (htg : r.target ≠ "")
    (hrec : (if r.configData = "" then Except.ok m0 else env.recoverConfig r.configData m0)
              = Except.ok m)
    (hp : m.prober ∈ Probers) :
    probeHandler env c r = .metricsPage 200
      { probeSuccess := if (env.prob m.prober (specBudget env m0 t0) r.target m).1 then 1 else 0,
        probeDuration := env.elapsed,
        extra := (env.prob m.prober (specBudget env m0 t0) r.target m).2 }
    ∧ ((if (env.prob m.prober (specBudget env m0 t0) r.target m).1 then (1 : Rat) else 0) = 0
        ∨ (if (env.prob m.prober (specBudget env m0 t0) r.target m).1 then (1 : Rat) else 0) = 1)
    ∧ (probeHandler env c r).status = 200 := by
  have h := probeHandler_reaches_prober env c r m0 m t0 hm ht htg hrec hp
  refine ⟨h, ?_, ?_⟩
  · by_cases hb : (env.prob m.prober (specBudget env m0 t0) r.target m).1 <;> simp [hb]
  · rw [h]; rfl

/-- C5 witness: a failing prober still yields a 200 metrics response
whose success entry is the default 0 and whose duration is the elapsed
time, through the theorem at concrete inputs. -/
theorem C5_probe_finalization_witness :
    probeHandler envFail cEx reqPlain = .metricsPage 200
      { probeSuccess :=
          if (envFail.prob mEx.prober (specBudget envFail mEx 0) reqPlain.target mEx).1 then 1
          else 0,
        probeDuration := envFail.elapsed,
        extra := (envFail.prob mEx.prober (specBudget envFail mEx 0) reqPlain.target mEx).2 }
    ∧ ((if (envFail.prob mEx.prober (specBudget envFail mEx 0) reqPlain.target mEx).1
          then (1 : Rat) else 0) = 0
        ∨ (if (envFail.prob mEx.prober (specBudget envFail mEx 0) reqPlain.target mEx).1
            then (1 : Rat) else 0) = 1)
    ∧ (probeHandler envFail cEx reqPlain).status = 200 :=
  C5_probe_finalization envFail cEx reqPlain mEx mEx 0 rfl rfl (by decide) rfl (by decide)

/-- C6: every probe request starts from a registry seeded with exactly
the success and duration entries, both 0; probe requests never change
the server state; and in any sequence of requests the response and
effects of a probe request equal those of handling it alone from the
same state, independent of the probe requests before it and of any
requests after it. -/
theorem C6_metric_isolation :
    seedRegistry.entries = [("probe_success", (0 : Rat)), ("probe_duration", (0 : Rat))]
    ∧ (∀ (env : Env) (wl : List IPNet) (s : ServerState) (qs : List ServerRequest),
        (∀ q ∈ qs, ServerRequest.isProbe q = true) → (serve env wl s qs).1 = s)
    ∧ (∀ (env : Env) (wl : List IPNet) (s : ServerState) (rs1 : List ServerRequest)
        (ip : IP) (r : Request) (rs2 : List ServerRequest),
        (∀ q ∈ rs1, ServerRequest.isProbe q = true) →
        (serve env wl s (rs1 ++ ServerRequest.probe ip r :: rs2)).2.get? rs1.length
          = some (handleRequest env wl s (.probe ip r)).2) := by
  refine ⟨rfl, ?_, ?_⟩
  · intro env wl s qs h
    exact serve_state_frame_of_probes env wl qs s h
  · intro env wl s rs1 ip r rs2 h
    exact serve_get_after_probes env wl rs1 s _ rs2 h

/-- C6 witness: in a concrete two-probe sequence the second response is
exactly the response of handling the second request alone. -/
theorem C6_metric_isolation_witness :
    (serve envEx [allV4] sEx
        ([ServerRequest.probe (.v4 1) reqPlain] ++ ServerRequest.probe (.v4 2) reqHint20 :: [])).2.get? 1
      = some (handleRequest envEx [allV4] sEx (.probe (.v4 2) reqHint20)).2 :=
  C6_metric_isolation.2.2 envEx [allV4] sEx [ServerRequest.probe (.v4 1) reqPlain]
    (.v4 2) reqHint20 [] (by decide)

/-- C7: an inline override that fails to parse yields a 400 carrying
the parser message and the base module is never probed; probe handling
never mutates the shared configuration; and a request (in particular
one without an override) served after any probe requests gets the same
response as from the initial state, so no previous override affects
it. -/
theorem C7_config_override :
    (∀ (env : Env) (c : Config) (r : Request) (m0 : Module) (t0 : Rat) (e : String),
        c.find (if r.moduleParam = "" then "http_2xx" else r.moduleParam) = some m0 →
        (if r.timeoutHeader = "" then Except.ok 0 else env.parseFloat r.timeoutHeader)
          = Except.ok t0 →
        r.target ≠ "" → r.configData ≠ "" →
        env.recoverConfig r.configData m0 = .error e →
        probeHandler env c r = .httpError 400 e)
    ∧ (∀ (env : Env) (wl : List IPNet) (s : ServerState) (ip : IP) (r : Request),
        (handleRequest env wl s (.probe ip r)).1 = s)
    ∧ (∀ (env : Env) (wl : List IPNet) (s : ServerState) (qs : List ServerRequest)
        (ip : IP) (r : Request),
        (∀ q ∈ qs, ServerRequest.isProbe q = true) →
        (serve env wl s (qs ++ [ServerRequest.probe ip r])).2.get? qs.length
          = some (handleRequest env wl s (.probe ip r)).2) := by
  refine ⟨?_, ?_, ?_⟩
  · intro env c r m0 t0 e hm ht htg hcd hrec
    simp [probeHandler, hm, ht, htg, hcd, hrec]
  · exact probe_state_frame
  · intro env wl s qs ip r h
    exact serve_get_after_probes env wl qs s _ [] h

/-- C7 witness: a concrete failing override yields the 400 with the
parser message, through the theorem at concrete inputs. -/
theorem C7_config_override_witness :
    probeHandler envEx cEx reqOverride = .httpError 400 "yaml: unmarshal error" :=
  C7_config_override.1 envEx cEx reqOverride mEx 0 "yaml: unmarshal error" rfl rfl
    (by decide) (by decide) rfl

/-- C9: whitelist construction normalizes a bare IPv4 entry with /32
and a bare IPv6 entry with /128 before CIDR parsing; an entry that
still fails CIDR parsing aborts construction with a fatal error; and
the default flag value builds ranges admitting every address of both
families. -/
theorem C9_whitelist_construction :
    (∀ (parIP : String → Option IP) (parCIDR : String → Option IPNet) (e : String)
        (rest : List String) (ip : IP) (n : IPNet) (ns : List IPNet),
        parIP e = some ip → ip.isV4 = true → parCIDR (e ++ "/32") = some n →
        buildWhitelist parIP parCIDR rest = .ok ns →
        buildWhitelist parIP parCIDR (e :: rest) = .ok (n :: ns))
    ∧ (∀ (parIP : String → Option IP) (parCIDR : String → Option IPNet) (e : String)
        (rest : List String) (ip : IP) (n : IPNet) (ns : List IPNet),
        parIP e = some ip → ip.isV4 = false → parCIDR (e ++ "/128") = some n →
        buildWhitelist parIP parCIDR rest = .ok ns →
        buildWhitelist parIP parCIDR (e :: rest) = .ok (n :: ns))
    ∧ (∀ (parIP : String → Option IP) (parCIDR : String → Option IPNet) (e : String)
        (rest : List String),
        parCIDR (normalizeEntry parIP e) = none →
        buildWhitelist parIP parCIDR (e :: rest)
          = .error ("Add netip error: " ++ normalizeEntry parIP e))
    ∧ (∀ (parIP : String → Option IP) (parCIDR : String → Option IPNet),
        parIP "0.0.0.0/0" = none → parIP "::/0" = none →
        parCIDR "0.0.0.0/0" = some allV4 → parCIDR "::/0" = some allV6 →
        buildWhitelist parIP parCIDR (splitComma defaultIpWhitelistString) = .ok [allV4, allV6]
        ∧ ∀ ip, checkInIpWhitelist [allV4, allV6] ip = true) := by
  refine ⟨?_, ?_, ?_, ?_⟩
  · intro parIP parCIDR e rest ip n ns h1 h2 h3 h4
    simp [buildWhitelist, normalizeEntry, h1, h2, h3, h4]
  · intro parIP parCIDR e rest ip n ns h1 h2 h3 h4
    simp [buildWhitelist, normalizeEntry, h1, h2, h3, h4]
  · intro parIP parCIDR e rest h1
    simp [buildWhitelist, h1]
  · intro parIP parCIDR h1 h2 h3 h4
    have hsplit : splitComma defaultIpWhitelistString = ["0.0.0.0/0", "::/0"] := by decide
    refine ⟨?_, checkInIpWhitelist_default⟩
    simp [hsplit, buildWhitelist, normalizeEntry, h1, h2, h3, h4]

/-- C9 witness: with concrete parser oracles, the default flag value
builds the two all-admitting ranges, an arbitrary IPv6 client is
admitted, and a list of one bare IPv4 and one bare IPv6 entry is
normalized to the exact-match ranges. -/
theorem C9_whitelist_construction_witness :
    buildWhitelist pIPex pCIDRex (splitComma defaultIpWhitelistString) = .ok [allV4, allV6]
    ∧ checkInIpWhitelist [allV4, allV6] (IP.v6 77) = true
    ∧ buildWhitelist pIPex pCIDRex ["127.0.0.1", "::1"]
        = .ok [{ isV4 := true, base := 2130706433, maskLen := 32 },
               { isV4 := false, base := 1, maskLen := 128 }] := by
  have hd := C9_whitelist_construction.2.2.2 pIPex pCIDRex rfl rfl rfl rfl
  have hv6 := C9_whitelist_construction.2.1 pIPex pCIDRex "::1" [] (IP.v6 1)
    { isV4 := false, base := 1, maskLen := 128 } [] rfl rfl rfl rfl
  have hv4 := C9_whitelist_construction.1 pIPex pCIDRex "127.0.0.1" ["::1"]
    (IP.v4 2130706433) { isV4 := true, base := 2130706433, maskLen := 32 }
    [{ isV4 := false, base := 1, maskLen := 128 }] rfl rfl rfl hv6
  exact ⟨hd.1, hd.2 (IP.v6 77), hv4⟩

end Blackbox
